import Mathlib

/-!
Shallow embedding of the pizza-order management API (`backendPizzada`):
the event/order/auth route handlers of `routes_eventos.py` and
`routes_auth.py`, the pydantic request models of `models.py`, and — where
a module is imported but absent from the sources (`auth.py`,
`routes_pedidos.py`) — definitions modelled from the specification, each
marked as such in its doc comment.

Modelling conventions:
- Calendar dates (`data_evento`) and timestamps (`data_limite`,
  `data_criacao`, the current time `now`) are `Nat` ordinals; the only
  operations the code performs on them are equality and order comparison.
- Money (`valor_total`, `valor_frete`, `preco_pedaco`) is a `Nat` amount
  in cents; the code only adds and sums these values.
- A database table is a `List` of rows; SQL `WHERE` is `List.filter`,
  `fetch_one` is `List.find?`, `INSERT` is append, aggregate `SUM` over
  zero rows is `NULL`, which the Python handlers coerce to `0`
  (`...if stats_result[i] else 0`) — in the `Nat` model both collapse to `0`.
- An HTTP handler is a function returning `Except ApiError α` (reads) or
  `(Except ApiError α) × DB` (writes, the second component being the
  database after the call); `HTTPException(status_code=c, detail=d)`
  becomes the `ApiError` constructor carrying code `c` and detail `d`.
-/

namespace Pizzada

/-- Errors raised with `HTTPException` in the handlers, plus the 422 the
pydantic validation layer produces for a request body that fails field
validation. -/
inductive ApiError where
  | badRequest (detail : String)
  | unauthorized (detail : String)
  | notFound (detail : String)
  | unprocessable (detail : String)
deriving DecidableEq

/-- HTTP status code of each error. -/
def ApiError.statusCode : ApiError → Nat
  | .badRequest _ => 400
  | .unauthorized _ => 401
  | .notFound _ => 404
  | .unprocessable _ => 422

/-- Row of the `usuarios` table. -/
structure Usuario where
  id : Nat
  nome_completo : String
  senha_hash : String
  setor : String
  is_admin : Bool
  ativo : Bool
  data_cadastro : Nat
deriving DecidableEq

/-- Row of the `sabores` table (pizza flavors). -/
structure Sabor where
  id : Nat
  nome : String
  preco_pedaco : Nat
  ativo : Bool
deriving DecidableEq

/-- Row of the `eventos` table. -/
structure Evento where
  id : Nat
  data_evento : Nat
  status : String
  data_limite : Nat
  data_criacao : Nat
deriving DecidableEq

/-- Row of the `pedidos` table. -/
structure Pedido where
  id : Nat
  evento_id : Nat
  usuario_id : Nat
  valor_total : Nat
  valor_frete : Nat
  status : String
deriving DecidableEq

/-- Row of the `itens_pedido` table. -/
structure ItemPedido where
  id : Nat
  pedido_id : Nat
  sabor_id : Nat
  quantidade : Nat
  preco_unitario : Nat
deriving DecidableEq

/-- The relational store the handlers read and write. -/
structure DB where
  usuarios : List Usuario
  eventos : List Evento
  pedidos : List Pedido
  itens_pedido : List ItemPedido
  sabores : List Sabor
deriving DecidableEq

/-- `SELECT ... FROM eventos WHERE id = :evento_id` with `fetch_one`. -/
def findEvento (db : DB) (eid : Nat) : Option Evento :=
  db.eventos.find? (fun e => e.id == eid)

/-- `SELECT ... FROM pedidos WHERE p.evento_id = :evento_id`. -/
def eventoPedidos (db : DB) (eid : Nat) : List Pedido :=
  db.pedidos.filter (fun p => p.evento_id == eid)

/-- Rows of `itens_pedido` joined to order `pid` (`ON p.id = ip.pedido_id`). -/
def pedidoItens (db : DB) (pid : Nat) : List ItemPedido :=
  db.itens_pedido.filter (fun ip => ip.pedido_id == pid)

/-- Rows a `LEFT JOIN itens_pedido ip ON p.id = ip.pedido_id` produces for
one order: one row per matching item, and a single row with a `NULL` item
side when the order has no items. -/
def pedidoJoinRows (db : DB) (p : Pedido) : List (Pedido × Option ItemPedido) :=
  match pedidoItens db p.id with
  | [] => [(p, none)]
  | its => its.map (fun ip => (p, some ip))

/-- Result rows of the statistics query of `obter_resumo_evento`:
`FROM pedidos p LEFT JOIN itens_pedido ip ON p.id = ip.pedido_id
WHERE p.evento_id = :evento_id`. -/
def resumoJoinRows (db : DB) (eid : Nat) : List (Pedido × Option ItemPedido) :=
  ((eventoPedidos db eid).map (pedidoJoinRows db)).flatten

/-- `ip.quantidade` of a join row; SQL `SUM` skips the `NULL` item side of
an unmatched row, hence `0` there. -/
def rowQuantidade : Pedido × Option ItemPedido → Nat
  | (_, none) => 0
  | (_, some ip) => ip.quantidade

/-- Response model `ResumoEvento` of `models.py`. -/
structure ResumoEvento where
  evento : Evento
  total_participantes : Nat
  total_pedidos : Nat
  total_pizzas : Nat
  valor_total : Nat
deriving DecidableEq

/-- Handler `GET /eventos/\x7bevento_id\x7d/resumo` (`obter_resumo_evento`
in `routes_eventos.py`): 404 when the event does not exist, otherwise the
statistics query `COUNT(DISTINCT p.usuario_id)`, `COUNT(p.id)`,
`SUM(p.valor_total + p.valor_frete)`, `SUM(ip.quantidade)` over the
left-join rows, with `total_pizzas = total_pedacos // 8`. -/
def obter_resumo_evento (db : DB) (eid : Nat) : Except ApiError ResumoEvento :=
  match findEvento db eid with
  | none => .error (.notFound "Evento não encontrado")
  | some ev =>
    let rows := resumoJoinRows db eid
    let total_participantes := ((rows.map (fun r => r.1.usuario_id)).dedup).length
    let total_pedidos := rows.length
    let valor_total := (rows.map (fun r => r.1.valor_total + r.1.valor_frete)).sum
    let total_pedacos := (rows.map rowQuantidade).sum
    .ok ⟨ev, total_participantes, total_pedidos, total_pedacos / 8, valor_total⟩

/-- `WHERE status = 'ABERTO' AND data_limite > SYSTIMESTAMP` of
`obter_evento_ativo`. -/
def eventoQualifica (now : Nat) (e : Evento) : Bool :=
  e.status == "ABERTO" && now < e.data_limite

/-- `ORDER BY data_evento DESC FETCH FIRST 1 ROWS ONLY`: the row with the
greatest `data_evento` (on a tie the SQL order among equal keys is
unspecified; this model keeps the earlier row). -/
def maisRecente : List Evento → Option Evento
  | [] => none
  | e :: es =>
    match maisRecente es with
    | none => some e
    | some b => if e.data_evento < b.data_evento then some b else some e

/-- Handler `GET /eventos/ativo` (`obter_evento_ativo` in
`routes_eventos.py`). -/
def obter_evento_ativo (db : DB) (now : Nat) : Except ApiError Evento :=
  match maisRecente (db.eventos.filter (eventoQualifica now)) with
  | none => .error (.notFound "Não há evento ativo no momento")
  | some e => .ok e

theorem maisRecente_eq_none {l : List Evento}
    (h : maisRecente l = none) : l = [] := by
  cases l with
  | nil => rfl
  | cons a as =>
    simp only [maisRecente] at h
    cases hrec : maisRecente as with
    | none => rw [hrec] at h; exact absurd h (by simp)
    | some b => rw [hrec] at h; by_cases hlt : a.data_evento < b.data_evento <;> simp [hlt] at h

theorem maisRecente_mem {l : List Evento} {e : Evento}
    (h : maisRecente l = some e) : e ∈ l := by
  induction l generalizing e with
  | nil => simp [maisRecente] at h
  | cons a as ih =>
    simp only [maisRecente] at h
    cases hrec : maisRecente as with
    | none => rw [hrec] at h; simp at h; simp [h]
    | some b =>
      rw [hrec] at h
      by_cases hlt : a.data_evento < b.data_evento
      · simp [hlt] at h
        exact List.mem_cons_of_mem _ (h ▸ ih hrec)
      · simp [hlt] at h
        simp [h]

theorem maisRecente_max {l : List Evento} {e : Evento}
    (h : maisRecente l = some e) :
    ∀ x ∈ l, x.data_evento ≤ e.data_evento := by
  induction l generalizing e with
  | nil => simp [maisRecente] at h
  | cons a as ih =>
    simp only [maisRecente] at h
    intro x hx
    cases hrec : maisRecente as with
    | none =>
      rw [hrec] at h
      simp at h
      rcases List.mem_cons.mp hx with rfl | hxas
      · simp [h]
      · rw [maisRecente_eq_none hrec] at hxas; simp at hxas
    | some b =>
      rw [hrec] at h
      rcases List.mem_cons.mp hx with rfl | hxas
      · by_cases hlt : x.data_evento < b.data_evento
        · simp [hlt] at h
          exact le_of_lt (h ▸ hlt)
        · simp [hlt] at h
          simp [h]
      · by_cases hlt : a.data_evento < b.data_evento
        · simp [hlt] at h
          exact h ▸ ih hrec x hxas
        · simp [hlt] at h
          exact le_trans (ih hrec x hxas) (h ▸ not_lt.mp hlt)

theorem maisRecente_isSome {l : List Evento} (h : l ≠ []) :
    ∃ e, maisRecente l = some e := by
  cases l with
  | nil => exact absurd rfl h
  | cons a as =>
    simp only [maisRecente]
    cases maisRecente as with
    | none => exact ⟨a, rfl⟩
    | some b =>
      by_cases hlt : a.data_evento < b.data_evento
      · exact ⟨b, by simp [hlt]⟩
      · exact ⟨a, by simp [hlt]⟩

/-- C3: `getActive` (`obter_evento_ativo`) only ever returns a stored event
with status ABERTO and deadline strictly after the current time, maximal by
event date among all qualifying events; when no stored event qualifies it
fails with 404 NotFound; and when at least one qualifies it returns some
event (exactly one, the handler's result being a single event). -/
theorem getActive_spec (db : DB) (now : Nat) :
    (∀ e, obter_evento_ativo db now = .ok e →
      e.status = "ABERTO" ∧ now < e.data_limite ∧ e ∈ db.eventos ∧
      ∀ x ∈ db.eventos, eventoQualifica now x = true →
        x.data_evento ≤ e.data_evento) ∧
    ((∀ x ∈ db.eventos, eventoQualifica now x = false) →
      obter_evento_ativo db now = .error (.notFound "Não há evento ativo no momento")) ∧
    ((∃ x ∈ db.eventos, eventoQualifica now x = true) →
      ∃ e, obter_evento_ativo db now = .ok e) := by
  refine ⟨?_, ?_, ?_⟩
  · intro e he
    unfold obter_evento_ativo at he
    cases hrec : maisRecente (db.eventos.filter (eventoQualifica now)) with
    | none => rw [hrec] at he; simp at he
    | some b =>
      rw [hrec] at he
      simp at he
      subst he
      have hmem := maisRecente_mem hrec
      have hq : eventoQualifica now b = true := (List.mem_filter.mp hmem).2
      have hmem' : b ∈ db.eventos := (List.mem_filter.mp hmem).1
      unfold eventoQualifica at hq
      simp only [Bool.and_eq_true, beq_iff_eq, decide_eq_true_eq] at hq
      refine ⟨hq.1, hq.2, hmem', ?_⟩
      intro x hx hxq
      exact maisRecente_max hrec x (List.mem_filter.mpr ⟨hx, hxq⟩)
  · intro hall
    have hnil : db.eventos.filter (eventoQualifica now) = [] := by
      rw [List.filter_eq_nil_iff]
      intro a ha
      simp [hall a ha]
    unfold obter_evento_ativo
    rw [hnil]
    rfl
  · rintro ⟨x, hx, hq⟩
    have hmem : x ∈ db.eventos.filter (eventoQualifica now) :=
      List.mem_filter.mpr ⟨hx, hq⟩
    obtain ⟨e, he⟩ := maisRecente_isSome (List.ne_nil_of_mem hmem)
    exact ⟨e, by unfold obter_evento_ativo; rw [he]⟩

/-- Concrete events for exercising `obter_evento_ativo`: two qualifying
ABERTO events and one FECHADO event. -/
def evAberto1 : Evento := ⟨1, 10, "ABERTO", 100, 0⟩

def evAberto2 : Evento := ⟨2, 20, "ABERTO", 100, 0⟩

def evFechado : Evento := ⟨3, 30, "FECHADO", 100, 0⟩

def dbEventos : DB := ⟨[], [evAberto1, evAberto2, evFechado], [], [], []⟩

/-- Witness for `getActive_spec` at the concrete store `dbEventos`: at time 5
the handler returns the later ABERTO event, and at time 200 (past every
deadline) it fails with 404. -/
theorem getActive_spec_witness :
    (evAberto2.status = "ABERTO" ∧ 5 < evAberto2.data_limite ∧
      evAberto2 ∈ dbEventos.eventos ∧
      ∀ x ∈ dbEventos.eventos, eventoQualifica 5 x = true →
        x.data_evento ≤ evAberto2.data_evento) ∧
    obter_evento_ativo dbEventos 200 = .error (.notFound "Não há evento ativo no momento") ∧
    (∃ e, obter_evento_ativo dbEventos 5 = .ok e) :=
  ⟨(getActive_spec dbEventos 5).1 evAberto2 rfl,
   (getActive_spec dbEventos 200).2.1 (by decide),
   (getActive_spec dbEventos 5).2.2 ⟨evAberto2, by decide, by decide⟩⟩

/-- Concrete store for the summary fan-out: event 1 holds exactly one order
(user 7, total 10, shipping 5) with two line items (5 and 3 slices). -/
def c1Evento : Evento := ⟨1, 10, "ABERTO", 100, 0⟩

def c1Pedido : Pedido := ⟨1, 1, 7, 10, 5, "PENDENTE"⟩

def c1Item1 : ItemPedido := ⟨1, 1, 1, 5, 2⟩

def c1Item2 : ItemPedido := ⟨2, 1, 2, 3, 2⟩

def c1DB : DB := ⟨[], [c1Evento], [c1Pedido], [c1Item1, c1Item2], []⟩

/-- C1: on a store where event 1 has exactly one order, whose total plus
shipping is 15 and which carries two line items, `obter_resumo_evento`
reports `total_pedidos = 2` and `valor_total = 30`: the LEFT JOIN to
`itens_pedido` duplicates the order row once per line item, so
`COUNT(p.id)` and `SUM(p.valor_total + p.valor_frete)` count each order
once per line item rather than exactly once (participant count and pizza
count are unaffected: `COUNT(DISTINCT p.usuario_id)` collapses the
duplicates and each line item appears once in `SUM(ip.quantidade)`). -/
theorem resumo_fanout_bug :
    (eventoPedidos c1DB 1).length = 1 ∧
    ((eventoPedidos c1DB 1).map (fun p => p.valor_total + p.valor_frete)).sum = 15 ∧
    obter_resumo_evento c1DB 1 = .ok ⟨c1Evento, 1, 2, 1, 30⟩ :=
  ⟨rfl, rfl, rfl⟩

/-- Line items belonging to the orders of event `eid`: the event's line
items, over which the specification sums the slices. -/
def eventoItens (db : DB) (eid : Nat) : List ItemPedido :=
  db.itens_pedido.filter (fun ip => (eventoPedidos db eid).any (fun p => ip.pedido_id == p.id))

/-- Total slices of event `eid`, summed from its line items. -/
def totalPedacosEvento (db : DB) (eid : Nat) : Nat :=
  ((eventoItens db eid).map (fun ip => ip.quantidade)).sum

theorem pedidoJoinRows_quant_sum (db : DB) (p : Pedido) :
    ((pedidoJoinRows db p).map rowQuantidade).sum
      = ((pedidoItens db p.id).map (fun ip => ip.quantidade)).sum := by
  unfold pedidoJoinRows
  cases h : pedidoItens db p.id with
  | nil => rfl
  | cons i is =>
    simp only [List.map_cons, List.map_map]
    rfl

theorem resumo_rows_quant_sum (db : DB) (ps : List Pedido) :
    (((ps.map (pedidoJoinRows db)).flatten).map rowQuantidade).sum
      = (ps.map (fun p => ((pedidoItens db p.id).map (fun ip => ip.quantidade)).sum)).sum := by
  induction ps with
  | nil => rfl
  | cons p ps ih =>
    simp only [List.map_cons, List.flatten_cons, List.map_append, List.sum_append,
      List.sum_cons, ih, pedidoJoinRows_quant_sum]

theorem sum_map_filter_or_disjoint {α : Type} (f : α → Nat) (a b : α → Bool)
    (l : List α) (hdisj : ∀ x ∈ l, ¬(a x = true ∧ b x = true)) :
    ((l.filter (fun x => a x || b x)).map f).sum
      = ((l.filter a).map f).sum + ((l.filter b).map f).sum := by
  induction l with
  | nil => rfl
  | cons x xs ih =>
    have hd := hdisj x (List.mem_cons_self x xs)
    have ih' := ih (fun y hy => hdisj y (List.mem_cons_of_mem x hy))
    cases ha : a x with
    | true =>
      cases hb : b x with
      | true => exact absurd ⟨ha, hb⟩ hd
      | false =>
        simp only [List.filter_cons, ha, hb, Bool.true_or, if_true, if_false,
          List.map_cons, List.sum_cons, ih', Bool.false_eq_true]
        omega
    | false =>
      cases hb : b x with
      | true =>
        simp only [List.filter_cons, ha, hb, Bool.false_or, if_true, if_false,
          List.map_cons, List.sum_cons, ih', Bool.false_eq_true]
        omega
      | false =>
        simp only [List.filter_cons, ha, hb, Bool.false_or, if_false,
          Bool.false_eq_true, ih']

theorem sum_pedidoItens_eq (I : List ItemPedido) (ps : List Pedido)
    (h : (ps.map (fun p => p.id)).Nodup) :
    (ps.map (fun p =>
        ((I.filter (fun ip => ip.pedido_id == p.id)).map (fun ip => ip.quantidade)).sum)).sum
      = ((I.filter (fun ip => ps.any (fun p => ip.pedido_id == p.id))).map
          (fun ip => ip.quantidade)).sum := by
  induction ps with
  | nil => simp
  | cons p ps ih =>
    have hnd := List.nodup_cons.mp h
    have hdisj : ∀ ip ∈ I,
        ¬((ip.pedido_id == p.id) = true ∧
          (ps.any (fun q => ip.pedido_id == q.id)) = true) := by
      rintro ip _ ⟨h1, h2⟩
      obtain ⟨q, hq, hq2⟩ := List.any_eq_true.mp h2
      apply hnd.1
      rw [List.mem_map]
      exact ⟨q, hq, by rw [← eq_of_beq hq2, eq_of_beq h1]⟩
    simp only [List.map_cons, List.sum_cons, List.any_cons, ih hnd.2,
      sum_map_filter_or_disjoint _ _ _ I hdisj]

theorem resumo_quant_sum (db : DB) (eid : Nat)
    (hpk : (db.pedidos.map (fun p => p.id)).Nodup) :
    ((resumoJoinRows db eid).map rowQuantidade).sum = totalPedacosEvento db eid := by
  have hnodup : ((eventoPedidos db eid).map (fun p => p.id)).Nodup :=
    List.Nodup.sublist (List.Sublist.map _ (List.filter_sublist _)) hpk
  unfold resumoJoinRows totalPedacosEvento eventoItens
  rw [resumo_rows_quant_sum]
  exact sum_pedidoItens_eq db.itens_pedido (eventoPedidos db eid) hnodup

theorem obter_resumo_eq (db : DB) (eid : Nat) (ev : Evento)
    (hev : findEvento db eid = some ev) :
    obter_resumo_evento db eid = .ok ⟨ev,
      ((resumoJoinRows db eid).map (fun r => r.1.usuario_id)).dedup.length,
      (resumoJoinRows db eid).length,
      ((resumoJoinRows db eid).map rowQuantidade).sum / 8,
      ((resumoJoinRows db eid).map (fun r => r.1.valor_total + r.1.valor_frete)).sum⟩ := by
  unfold obter_resumo_evento
  rw [hev]

/-- C2: when the primary key of `pedidos` is sound (order ids distinct) and
the event exists, the summary's `total_pizzas` is the floor of the event's
total line-item slices divided by 8, and an event with no orders yields a
summary whose participant, order, pizza and value fields are all zero. -/
theorem resumo_totalPizzas_spec (db : DB) (eid : Nat) (ev : Evento)
    (hpk : (db.pedidos.map (fun p => p.id)).Nodup)
    (hev : findEvento db eid = some ev) :
    (∃ r, obter_resumo_evento db eid = .ok r ∧
        r.total_pizzas = totalPedacosEvento db eid / 8) ∧
    (eventoPedidos db eid = [] →
        obter_resumo_evento db eid = .ok ⟨ev, 0, 0, 0, 0⟩) := by
  constructor
  · exact ⟨_, obter_resumo_eq db eid ev hev, by simp [resumo_quant_sum db eid hpk]⟩
  · intro hnone
    rw [obter_resumo_eq db eid ev hev]
    have hrows : resumoJoinRows db eid = [] := by
      unfold resumoJoinRows
      rw [hnone]
      rfl
    rw [hrows]
    rfl

/-- Concrete store for the summary totals: event 1 holds one order (13
slices over two line items), event 2 holds no orders. -/
def c2Evento1 : Evento := ⟨1, 10, "ABERTO", 100, 0⟩

def c2Evento2 : Evento := ⟨2, 20, "ABERTO", 100, 0⟩

def c2Pedido : Pedido := ⟨1, 1, 3, 20, 5, "PENDENTE"⟩

def c2Item1 : ItemPedido := ⟨1, 1, 1, 7, 2⟩

def c2Item2 : ItemPedido := ⟨2, 1, 2, 6, 2⟩

def c2DB : DB := ⟨[], [c2Evento1, c2Evento2], [c2Pedido], [c2Item1, c2Item2], []⟩

/-- Witness for `resumo_totalPizzas_spec` on `c2DB`: event 1 (13 slices)
reports `total_pizzas = 13 / 8`, and event 2 (no orders) reports all-zero
statistics. -/
theorem resumo_totalPizzas_spec_witness :
    (∃ r, obter_resumo_evento c2DB 1 = .ok r ∧
        r.total_pizzas = totalPedacosEvento c2DB 1 / 8) ∧
    obter_resumo_evento c2DB 2 = .ok ⟨c2Evento2, 0, 0, 0, 0⟩ :=
  ⟨(resumo_totalPizzas_spec c2DB 1 c2Evento1 (by decide) rfl).1,
   (resumo_totalPizzas_spec c2DB 2 c2Evento2 (by decide) rfl).2 rfl⟩

/-- Detail message of the delete-conflict error, carrying the order count. -/
def deleteConflictDetail (n : Nat) : String :=
  s!"Não é possível deletar evento com {n} pedido(s). Delete os pedidos primeiro."

/-- Handler `DELETE /eventos/...` (`deletar_evento` in `routes_eventos.py`):
first counts the orders referencing the event and rejects with 400 when the
count is positive; otherwise runs the `DELETE`, failing with 404 when
`cursor.rowcount == 0` (no stored event had the id, so nothing changed). -/
def deletar_evento (db : DB) (eid : Nat) : (Except ApiError Unit) × DB :=
  let numPedidos := (db.pedidos.filter (fun p => p.evento_id == eid)).length
  if 0 < numPedidos then
    (.error (.badRequest (deleteConflictDetail numPedidos)), db)
  else
    let restantes := db.eventos.filter (fun e => !(e.id == eid))
    if restantes.length == db.eventos.length then
      (.error (.notFound "Evento não encontrado"), db)
    else
      (.ok (), { db with eventos := restantes })

/-- Request model `EventoCreate` of `models.py` (its optional `nome` field
is never read by the handler and is omitted). -/
structure EventoCreate where
  data_evento : Nat
  data_limite : Nat
deriving DecidableEq

/-- Handler `POST /eventos/` (`criar_evento` in `routes_eventos.py`):
rejects with 400 when an event already exists for the date; otherwise
inserts a row whose status the `INSERT` hard-codes to `'ABERTO'`
(`newId` models the database-assigned id, `now` the `data_criacao`
default), then re-selects the row by date. -/
def criar_evento (db : DB) (ev : EventoCreate) (newId : Nat) (now : Nat) :
    (Except ApiError Evento) × DB :=
  if db.eventos.any (fun e => e.data_evento == ev.data_evento) then
    (.error (.badRequest "Já existe um evento para esta data"), db)
  else
    let novo : Evento := ⟨newId, ev.data_evento, "ABERTO", ev.data_limite, now⟩
    let db2 : DB := { db with eventos := db.eventos ++ [novo] }
    match db2.eventos.find? (fun e => e.data_evento == ev.data_evento) with
    | some e => (.ok e, db2)
    | none => (.error (.notFound "Evento não encontrado"), db2)

/-- Request model `EventoUpdate` of `models.py`: both fields optional. -/
structure EventoUpdate where
  status : Option String
  data_limite : Option Nat
deriving DecidableEq

/-- Pydantic pattern `^(ABERTO|FECHADO|FINALIZADO)$` on `EventoUpdate.status`. -/
def statusPatternOk (u : EventoUpdate) : Bool :=
  match u.status with
  | none => true
  | some s => s == "ABERTO" || s == "FECHADO" || s == "FINALIZADO"

/-- Validation layer for `PUT /eventos/...` bodies: pydantic rejects a
request whose provided status fails the pattern with 422 before the
handler runs. -/
def parseEventoUpdate (status : Option String) (data_limite : Option Nat) :
    Except ApiError EventoUpdate :=
  let u : EventoUpdate := ⟨status, data_limite⟩
  if statusPatternOk u then .ok u
  else .error (.unprocessable "String should match pattern")

/-- `UPDATE eventos SET <provided fields> WHERE id = :evento_id` applied to
one row: exactly the provided fields change. -/
def aplicarUpdate (u : EventoUpdate) (e : Evento) : Evento :=
  { e with
    status := u.status.getD e.status,
    data_limite := u.data_limite.getD e.data_limite }

/-- Handler `PUT /eventos/...` (`atualizar_evento` in `routes_eventos.py`):
404 when the event does not exist, 400 when neither field was provided,
otherwise the field-by-field `UPDATE` followed by a re-select of the row. -/
def atualizar_evento (db : DB) (eid : Nat) (u : EventoUpdate) :
    (Except ApiError Evento) × DB :=
  if db.eventos.any (fun e => e.id == eid) then
    if u.status.isNone && u.data_limite.isNone then
      (.error (.badRequest "Nenhum campo para atualizar"), db)
    else
      let atualizados := db.eventos.map (fun e => if e.id == eid then aplicarUpdate u e else e)
      let db2 : DB := { db with eventos := atualizados }
      match atualizados.find? (fun e => e.id == eid) with
      | some e => (.ok e, db2)
      | none => (.error (.notFound "Evento não encontrado"), db2)
  else
    (.error (.notFound "Evento não encontrado"), db)

theorem length_filter_lt_of_mem {α : Type} {p : α → Bool} {l : List α} {x : α}
    (hx : x ∈ l) (hpx : p x = false) : (l.filter p).length < l.length := by
  induction l with
  | nil => simp at hx
  | cons a as ih =>
    rcases List.mem_cons.mp hx with rfl | hmem
    · rw [List.filter_cons, hpx]
      simp only [Bool.false_eq_true, if_false, List.length_cons]
      exact Nat.lt_succ_of_le (List.length_filter_le _ _)
    · rw [List.filter_cons]
      cases hpa : p a
      · simp only [Bool.false_eq_true, if_false, List.length_cons]
        exact Nat.lt_succ_of_lt (ih hmem)
      · simp only [if_true, List.length_cons]
        exact Nat.succ_lt_succ (ih hmem)

theorem find?_append_of_none {α : Type} {p : α → Bool} {l₁ l₂ : List α}
    (h : ∀ a ∈ l₁, p a = false) : (l₁ ++ l₂).find? p = l₂.find? p := by
  induction l₁ with
  | nil => rfl
  | cons a as ih =>
    rw [List.cons_append, List.find?_cons_of_neg]
    · exact ih (fun b hb => h b (List.mem_cons_of_mem a hb))
    · simp [h a (List.mem_cons_self a as)]

/-- C4: with zero orders referencing the event and the event stored,
`deletar_evento` succeeds (the 204 path) and removes exactly the rows with
that id; with at least one referencing order it fails with 400 whose detail
message carries the order count and leaves the store unchanged; and with
zero referencing orders but no stored event with the id it fails with 404,
store unchanged. -/
theorem deletar_evento_spec (db : DB) (eid : Nat) :
    ((∀ p ∈ db.pedidos, p.evento_id ≠ eid) → (∃ e ∈ db.eventos, e.id = eid) →
      deletar_evento db eid =
        (.ok (), { db with eventos := db.eventos.filter (fun e => !(e.id == eid)) })) ∧
    (0 < (db.pedidos.filter (fun p => p.evento_id == eid)).length →
      deletar_evento db eid =
        (.error (.badRequest (deleteConflictDetail
          (db.pedidos.filter (fun p => p.evento_id == eid)).length)), db)) ∧
    ((∀ p ∈ db.pedidos, p.evento_id ≠ eid) → (∀ e ∈ db.eventos, e.id ≠ eid) →
      deletar_evento db eid = (.error (.notFound "Evento não encontrado"), db)) := by
  refine ⟨?_, ?_, ?_⟩
  · intro hped hev
    have h0 : db.pedidos.filter (fun p => p.evento_id == eid) = [] := by
      rw [List.filter_eq_nil_iff]
      intro p hp
      simpa using hped p hp
    obtain ⟨e, he, heid⟩ := hev
    have hlt : (db.eventos.filter (fun e => !(e.id == eid))).length < db.eventos.length :=
      length_filter_lt_of_mem he (by simp [heid])
    have hne : ((db.eventos.filter (fun e => !(e.id == eid))).length
        == db.eventos.length) = false := by
      simp [Nat.ne_of_lt hlt]
    unfold deletar_evento
    rw [h0]
    simp [hne]
  · intro hpos
    unfold deletar_evento
    simp only [hpos, if_true]
  · intro hped hev
    have h0 : db.pedidos.filter (fun p => p.evento_id == eid) = [] := by
      rw [List.filter_eq_nil_iff]
      intro p hp
      simpa using hped p hp
    have hself : db.eventos.filter (fun e => !(e.id == eid)) = db.eventos := by
      rw [List.filter_eq_self]
      intro e he
      simp [hev e he]
    unfold deletar_evento
    rw [h0, hself]
    simp

/-- Concrete stores for `deletar_evento`: event 1 with no orders, event 2
with two orders. -/
def c4Evento1 : Evento := ⟨1, 10, "ABERTO", 100, 0⟩

def c4Evento2 : Evento := ⟨2, 20, "FECHADO", 100, 0⟩

def c4Pedido1 : Pedido := ⟨1, 2, 3, 20, 5, "PENDENTE"⟩

def c4Pedido2 : Pedido := ⟨2, 2, 4, 10, 5, "PENDENTE"⟩

def c4DB : DB := ⟨[], [c4Evento1, c4Evento2], [c4Pedido1, c4Pedido2], [], []⟩

/-- Witness for `deletar_evento_spec` on `c4DB`: deleting event 1 (no
orders) succeeds and removes it, deleting event 2 fails with 400 carrying
the count 2, deleting event 9 (absent) fails with 404. -/
theorem deletar_evento_spec_witness :
    deletar_evento c4DB 1 =
      (.ok (), { c4DB with eventos := c4DB.eventos.filter (fun e => !(e.id == 1)) }) ∧
    deletar_evento c4DB 2 =
      (.error (.badRequest (deleteConflictDetail
        (c4DB.pedidos.filter (fun p => p.evento_id == 2)).length)), c4DB) ∧
    deletar_evento c4DB 9 = (.error (.notFound "Evento não encontrado"), c4DB) :=
  ⟨(deletar_evento_spec c4DB 1).1 (by decide) ⟨c4Evento1, by decide, by decide⟩,
   (deletar_evento_spec c4DB 2).2.1 (by decide),
   (deletar_evento_spec c4DB 9).2.2 (by decide) (by decide)⟩

/-- C5: creating an event on a date that already has one fails with 400 and
leaves the store unchanged; on a free date it succeeds and both the
returned event and the inserted row carry status `"ABERTO"` — the request
model has no status field and the `INSERT` hard-codes `'ABERTO'`, so no
caller input can influence it. -/
theorem criar_evento_spec (db : DB) (ev : EventoCreate) (newId now : Nat) :
    ((∃ e ∈ db.eventos, e.data_evento = ev.data_evento) →
      criar_evento db ev newId now =
        (.error (.badRequest "Já existe um evento para esta data"), db)) ∧
    ((∀ e ∈ db.eventos, e.data_evento ≠ ev.data_evento) →
      criar_evento db ev newId now =
        (.ok ⟨newId, ev.data_evento, "ABERTO", ev.data_limite, now⟩,
         { db with eventos :=
            db.eventos ++ [⟨newId, ev.data_evento, "ABERTO", ev.data_limite, now⟩] })) := by
  constructor
  · rintro ⟨e, he, hdate⟩
    have hany : db.eventos.any (fun e => e.data_evento == ev.data_evento) = true :=
      List.any_eq_true.mpr ⟨e, he, by simp [hdate]⟩
    unfold criar_evento
    rw [hany]
    rfl
  · intro hfree
    have hany : db.eventos.any (fun e => e.data_evento == ev.data_evento) = false := by
      rw [List.any_eq_false]
      intro e he
      simp [hfree e he]
    have hfind : (db.eventos
          ++ [(⟨newId, ev.data_evento, "ABERTO", ev.data_limite, now⟩ : Evento)]).find?
          (fun e => e.data_evento == ev.data_evento)
        = some ⟨newId, ev.data_evento, "ABERTO", ev.data_limite, now⟩ := by
      rw [find?_append_of_none (fun e he => by simp [hfree e he])]
      simp [List.find?_cons_of_pos]
    unfold criar_evento
    rw [hany]
    simp only [Bool.false_eq_true, if_false]
    rw [hfind]

/-- Witness for `criar_evento_spec` on the store holding only an event
dated 10: creating another event dated 10 fails with 400, creating one
dated 11 succeeds with status ABERTO. -/
theorem criar_evento_spec_witness :
    criar_evento ⟨[], [⟨1, 10, "ABERTO", 100, 0⟩], [], [], []⟩ ⟨10, 99⟩ 2 7 =
      (.error (.badRequest "Já existe um evento para esta data"),
       ⟨[], [⟨1, 10, "ABERTO", 100, 0⟩], [], [], []⟩) ∧
    criar_evento ⟨[], [⟨1, 10, "ABERTO", 100, 0⟩], [], [], []⟩ ⟨11, 99⟩ 2 7 =
      (.ok ⟨2, 11, "ABERTO", 99, 7⟩,
       ⟨[], [⟨1, 10, "ABERTO", 100, 0⟩, ⟨2, 11, "ABERTO", 99, 7⟩], [], [], []⟩) :=
  ⟨(criar_evento_spec ⟨[], [⟨1, 10, "ABERTO", 100, 0⟩], [], [], []⟩ ⟨10, 99⟩ 2 7).1
      ⟨⟨1, 10, "ABERTO", 100, 0⟩, by decide, rfl⟩,
   (criar_evento_spec ⟨[], [⟨1, 10, "ABERTO", 100, 0⟩], [], [], []⟩ ⟨11, 99⟩ 2 7).2
      (by decide)⟩

/-- C6: `atualizar_evento` fails with 404 when no stored event has the id
(store unchanged) and with 400 when neither field was provided (store
unchanged); otherwise it rewrites exactly the rows carrying the target id
through `aplicarUpdate` — every other row is mapped to itself — and returns
some updated event; `aplicarUpdate` preserves `id`, `data_evento` and
`data_criacao`, keeps each omitted field and sets each provided one; and
the validation layer only admits a provided status equal to ABERTO,
FECHADO or FINALIZADO. -/
theorem atualizar_evento_spec (db : DB) (eid : Nat) (u : EventoUpdate) :
    ((∀ e ∈ db.eventos, e.id ≠ eid) →
      atualizar_evento db eid u = (.error (.notFound "Evento não encontrado"), db)) ∧
    ((∃ e ∈ db.eventos, e.id = eid) → u = ⟨none, none⟩ →
      atualizar_evento db eid u = (.error (.badRequest "Nenhum campo para atualizar"), db)) ∧
    ((∃ e ∈ db.eventos, e.id = eid) → u ≠ ⟨none, none⟩ →
      (atualizar_evento db eid u).2.eventos
        = db.eventos.map (fun e => if e.id == eid then aplicarUpdate u e else e) ∧
      ∃ e, (atualizar_evento db eid u).1 = .ok e) ∧
    (∀ e : Evento,
      (aplicarUpdate u e).id = e.id ∧
      (aplicarUpdate u e).data_evento = e.data_evento ∧
      (aplicarUpdate u e).data_criacao = e.data_criacao ∧
      (u.status = none → (aplicarUpdate u e).status = e.status) ∧
      (∀ s, u.status = some s → (aplicarUpdate u e).status = s) ∧
      (u.data_limite = none → (aplicarUpdate u e).data_limite = e.data_limite) ∧
      (∀ d, u.data_limite = some d → (aplicarUpdate u e).data_limite = d)) ∧
    (∀ s dl u', parseEventoUpdate (some s) dl = .ok u' →
      s = "ABERTO" ∨ s = "FECHADO" ∨ s = "FINALIZADO") := by
  refine ⟨?_, ?_, ?_, ?_, ?_⟩
  · intro hnone
    have hany : db.eventos.any (fun e => e.id == eid) = false := by
      rw [List.any_eq_false]
      intro e he
      simp [hnone e he]
    unfold atualizar_evento
    rw [hany]
    rfl
  · rintro ⟨e, he, heid⟩ hu
    have hany : db.eventos.any (fun x => x.id == eid) = true :=
      List.any_eq_true.mpr ⟨e, he, by simp [heid]⟩
    subst hu
    unfold atualizar_evento
    rw [hany]
    rfl
  · rintro ⟨e, he, heid⟩ hne
    have hany : db.eventos.any (fun x => x.id == eid) = true :=
      List.any_eq_true.mpr ⟨e, he, by simp [heid]⟩
    have hflag : (u.status.isNone && u.data_limite.isNone) = false := by
      obtain ⟨s, d⟩ := u
      cases s with
      | none =>
        cases d with
        | none => exact absurd rfl hne
        | some x => rfl
      | some x => rfl
    have hfe : (fun x => if x.id == eid then aplicarUpdate u x else x) e
        = aplicarUpdate u e := by
      simp [heid]
    have hmem : aplicarUpdate u e
        ∈ db.eventos.map (fun x => if x.id == eid then aplicarUpdate u x else x) :=
      hfe ▸ List.mem_map_of_mem _ he
    have hsome : ((db.eventos.map
          (fun x => if x.id == eid then aplicarUpdate u x else x)).find?
          (fun x => x.id == eid)).isSome := by
      rw [List.find?_isSome]
      exact ⟨aplicarUpdate u e, hmem, by simp [aplicarUpdate, heid]⟩
    obtain ⟨e', he'⟩ := Option.isSome_iff_exists.mp hsome
    unfold atualizar_evento
    rw [hany]
    simp only [if_true, hflag, Bool.false_eq_true, if_false]
    rw [he']
    exact ⟨rfl, e', rfl⟩
  · intro e
    obtain ⟨s, d⟩ := u
    cases s <;> cases d <;>
      simp [aplicarUpdate]
  · intro s dl u' h
    simp only [parseEventoUpdate] at h
    split at h
    · rename_i hc
      simp only [statusPatternOk, Bool.or_eq_true, beq_iff_eq] at hc
      tauto
    · exact absurd h (by simp)

/-- Concrete store for `atualizar_evento`: two events with ids 1 and 2. -/
def c6Evento1 : Evento := ⟨1, 10, "ABERTO", 100, 50⟩

def c6Evento2 : Evento := ⟨2, 20, "ABERTO", 120, 60⟩

def c6DB : DB := ⟨[], [c6Evento1, c6Evento2], [], [], []⟩

/-- Witness for `atualizar_evento_spec` on `c6DB`: updating the absent id 9
gives 404; updating id 1 with no fields gives 400; updating id 1 with
status FECHADO rewrites only that row and returns an event; the update
function's frame facts hold at `c6Evento1`; and "FECHADO" passes the
status pattern. -/
theorem atualizar_evento_spec_witness :
    atualizar_evento c6DB 9 ⟨some "FECHADO", none⟩
      = (.error (.notFound "Evento não encontrado"), c6DB) ∧
    atualizar_evento c6DB 1 ⟨none, none⟩
      = (.error (.badRequest "Nenhum campo para atualizar"), c6DB) ∧
    ((atualizar_evento c6DB 1 ⟨some "FECHADO", none⟩).2.eventos
        = c6DB.eventos.map
            (fun e => if e.id == 1 then aplicarUpdate ⟨some "FECHADO", none⟩ e else e) ∧
      ∃ e, (atualizar_evento c6DB 1 ⟨some "FECHADO", none⟩).1 = .ok e) ∧
    ((aplicarUpdate ⟨some "FECHADO", none⟩ c6Evento1).id = c6Evento1.id ∧
      (aplicarUpdate ⟨some "FECHADO", none⟩ c6Evento1).data_evento = c6Evento1.data_evento ∧
      (aplicarUpdate ⟨some "FECHADO", none⟩ c6Evento1).data_criacao = c6Evento1.data_criacao ∧
      ((⟨some "FECHADO", none⟩ : EventoUpdate).status = none →
        (aplicarUpdate ⟨some "FECHADO", none⟩ c6Evento1).status = c6Evento1.status) ∧
      (∀ s, (⟨some "FECHADO", none⟩ : EventoUpdate).status = some s →
        (aplicarUpdate ⟨some "FECHADO", none⟩ c6Evento1).status = s) ∧
      ((⟨some "FECHADO", none⟩ : EventoUpdate).data_limite = none →
        (aplicarUpdate ⟨some "FECHADO", none⟩ c6Evento1).data_limite = c6Evento1.data_limite) ∧
      (∀ d, (⟨some "FECHADO", none⟩ : EventoUpdate).data_limite = some d →
        (aplicarUpdate ⟨some "FECHADO", none⟩ c6Evento1).data_limite = d)) ∧
    ("FECHADO" = "ABERTO" ∨ "FECHADO" = "FECHADO" ∨ "FECHADO" = "FINALIZADO") :=
  ⟨(atualizar_evento_spec c6DB 9 ⟨some "FECHADO", none⟩).1 (by decide),
   (atualizar_evento_spec c6DB 1 ⟨none, none⟩).2.1 ⟨c6Evento1, by decide, rfl⟩ rfl,
   (atualizar_evento_spec c6DB 1 ⟨some "FECHADO", none⟩).2.2.1
      ⟨c6Evento1, by decide, rfl⟩ (by decide),
   (atualizar_evento_spec c6DB 1 ⟨some "FECHADO", none⟩).2.2.2.1 c6Evento1,
   (atualizar_evento_spec c6DB 1 ⟨some "FECHADO", none⟩).2.2.2.2 "FECHADO" none
      ⟨some "FECHADO", none⟩ rfl⟩

/-- Request model `UsuarioCreate` of `models.py`: `is_admin` defaults to
false but is caller-settable (the length constraints on the string fields
play no role in the claims below). -/
structure UsuarioCreate where
  nome_completo : String
  setor : String
  senha : String
  is_admin : Bool
deriving DecidableEq

/-- Modelled from the spec: `get_password_hash` lives in `auth.py`, which
`routes_auth.py` imports but which is absent from the sources. The spec
says passwords are stored only as a one-way hash; the model tags the
password so that hashes of distinct passwords stay distinct. -/
def get_password_hash (senha : String) : String :=
  "hash:" ++ senha

/-- Modelled from the spec: verification is a comparison of the candidate's
hash against the stored hash. -/
def verify_password (senha armazenado : String) : Bool :=
  get_password_hash senha == armazenado

/-- Response model `UsuarioResponse` of `models.py`. -/
structure UsuarioResponse where
  id : Nat
  nome_completo : String
  setor : String
  is_admin : Bool
  ativo : Bool
  data_cadastro : Nat
deriving DecidableEq

/-- Handler `POST /auth/register` (`register` in `routes_auth.py`). The
route declares no authentication dependency, so the model takes no caller
identity. It rejects with 400 when a user with the name already exists;
otherwise it inserts the user — `is_admin` taken verbatim from the request
(`1 if user.is_admin else 0`), `ativo` from the table default, described by
the spec's data model as active at creation — and re-selects the row by
name. `newId` models the database-assigned id, `now` the registration
timestamp. -/
def register (db : DB) (user : UsuarioCreate) (newId : Nat) (now : Nat) :
    (Except ApiError UsuarioResponse) × DB :=
  if db.usuarios.any (fun x => x.nome_completo == user.nome_completo) then
    (.error (.badRequest "Usuário já existe com este nome"), db)
  else
    let novo : Usuario := ⟨newId, user.nome_completo, get_password_hash user.senha,
      user.setor, user.is_admin, true, now⟩
    let db2 : DB := { db with usuarios := db.usuarios ++ [novo] }
    match db2.usuarios.find? (fun x => x.nome_completo == user.nome_completo) with
    | some r => (.ok ⟨r.id, r.nome_completo, r.setor, r.is_admin, r.ativo, r.data_cadastro⟩, db2)
    | none => (.error (.notFound "Usuário não encontrado"), db2)

/-- Modelled from the spec: `authenticate_user` lives in the absent
`auth.py`; per the spec's Auth component it resolves the user by name and
verifies the password against the stored hash. -/
def authenticate_user (db : DB) (nome senha : String) : Option Usuario :=
  match db.usuarios.find? (fun x => x.nome_completo == nome) with
  | none => none
  | some u => if verify_password senha u.senha_hash then some u else none

/-- Modelled from the spec: `create_access_token` lives in the absent
`auth.py`. The spec describes tokens as signed, time-bounded bearer
credentials encoding the user's identity, and the handler passes
`data = ("sub", str(user id))`; the model keeps the embedded subject and
the expiry instant. -/
structure AccessToken where
  sub : String
  expiry : Nat
deriving DecidableEq

/-- Modelled from the spec: token creation embeds the given subject and the
configured expiry window. -/
def create_access_token (sub : String) (now expireMinutes : Nat) : AccessToken :=
  ⟨sub, now + expireMinutes⟩

/-- Response model `Token` of `models.py`. -/
structure Token where
  access_token : AccessToken
  token_type : String
  user : UsuarioResponse
deriving DecidableEq

/-- Handler `POST /auth/login` (`login` in `routes_auth.py`): 401 when
authentication fails, otherwise a bearer token whose subject is
`str(user id)` together with the user's data. -/
def login (db : DB) (nome senha : String) (now expireMinutes : Nat) :
    Except ApiError Token :=
  match authenticate_user db nome senha with
  | none => .error (.unauthorized "Nome de usuário ou senha incorretos")
  | some u =>
      .ok ⟨create_access_token (toString u.id) now expireMinutes, "bearer",
        ⟨u.id, u.nome_completo, u.setor, u.is_admin, u.ativo, u.data_cadastro⟩⟩

theorem get_password_hash_inj {a b : String}
    (h : get_password_hash a = get_password_hash b) : a = b := by
  unfold get_password_hash at h
  have hd := congrArg String.data h
  simp only [String.data_append] at hd
  exact String.ext (List.append_cancel_left hd)

/-- Registering a fresh name inserts exactly one user row, carrying the
request's data, the hash of its password and the active default. -/
theorem register_ok (db : DB) (user : UsuarioCreate) (newId now : Nat)
    (hfresh : ∀ x ∈ db.usuarios, x.nome_completo ≠ user.nome_completo) :
    register db user newId now
      = (.ok ⟨newId, user.nome_completo, user.setor, user.is_admin, true, now⟩,
         { db with usuarios := db.usuarios
            ++ [⟨newId, user.nome_completo, get_password_hash user.senha,
                 user.setor, user.is_admin, true, now⟩] }) := by
  have hany : db.usuarios.any (fun x => x.nome_completo == user.nome_completo) = false := by
    rw [List.any_eq_false]
    intro x hx
    simp [hfresh x hx]
  have hfind : (db.usuarios
        ++ [(⟨newId, user.nome_completo, get_password_hash user.senha,
             user.setor, user.is_admin, true, now⟩ : Usuario)]).find?
        (fun x => x.nome_completo == user.nome_completo)
      = some ⟨newId, user.nome_completo, get_password_hash user.senha,
          user.setor, user.is_admin, true, now⟩ := by
    rw [find?_append_of_none (fun x hx => by simp [hfresh x hx])]
    simp [List.find?_cons_of_pos]
  unfold register
  rw [hany]
  simp only [Bool.false_eq_true, if_false]
  rw [hfind]

theorem login_of_find_wrong {db : DB} {u : Usuario} {nome senha : String} {now em : Nat}
    (hfind : db.usuarios.find? (fun x => x.nome_completo == nome) = some u)
    (hwrong : verify_password senha u.senha_hash = false) :
    login db nome senha now em
      = .error (.unauthorized "Nome de usuário ou senha incorretos") := by
  unfold login authenticate_user
  rw [hfind]
  simp only [hwrong, Bool.false_eq_true, if_false]

theorem login_of_find_ok {db : DB} {u : Usuario} {nome : String}
    (senha : String) (now em : Nat)
    (hfind : db.usuarios.find? (fun x => x.nome_completo == nome) = some u)
    (hok : verify_password senha u.senha_hash = true) :
    login db nome senha now em
      = .ok ⟨⟨toString u.id, now + em⟩, "bearer",
          ⟨u.id, u.nome_completo, u.setor, u.is_admin, u.ativo, u.data_cadastro⟩⟩ := by
  unfold login authenticate_user create_access_token
  rw [hfind]
  simp only [hok, if_true]

/-- C8: registering a name already held by a stored user fails with 400 and
creates no user (store unchanged); after a successful registration of a
fresh name, login with any wrong password fails with 401, and login with
the correct password returns a bearer token whose embedded subject is the
registered user's id, together with that user's data. -/
theorem auth_register_login_spec (db : DB) (user : UsuarioCreate)
    (newId now nowL em : Nat) (senha' : String) :
    ((∃ x ∈ db.usuarios, x.nome_completo = user.nome_completo) →
      register db user newId now
        = (.error (.badRequest "Usuário já existe com este nome"), db)) ∧
    ((∀ x ∈ db.usuarios, x.nome_completo ≠ user.nome_completo) →
      register db user newId now
        = (.ok ⟨newId, user.nome_completo, user.setor, user.is_admin, true, now⟩,
           { db with usuarios := db.usuarios
              ++ [⟨newId, user.nome_completo, get_password_hash user.senha,
                   user.setor, user.is_admin, true, now⟩] }) ∧
      (senha' ≠ user.senha →
        login (register db user newId now).2 user.nome_completo senha' nowL em
          = .error (.unauthorized "Nome de usuário ou senha incorretos")) ∧
      login (register db user newId now).2 user.nome_completo user.senha nowL em
        = .ok ⟨⟨toString newId, nowL + em⟩, "bearer",
            ⟨newId, user.nome_completo, user.setor, user.is_admin, true, now⟩⟩) := by
  constructor
  · rintro ⟨x, hx, hnome⟩
    have hany : db.usuarios.any (fun y => y.nome_completo == user.nome_completo) = true :=
      List.any_eq_true.mpr ⟨x, hx, by simp [hnome]⟩
    unfold register
    rw [hany]
    rfl
  · intro hfresh
    have hreg := register_ok db user newId now hfresh
    have hfind : ((register db user newId now).2).usuarios.find?
        (fun x => x.nome_completo == user.nome_completo)
        = some ⟨newId, user.nome_completo, get_password_hash user.senha,
            user.setor, user.is_admin, true, now⟩ := by
      rw [hreg]
      rw [find?_append_of_none (fun x hx => by simp [hfresh x hx])]
      simp [List.find?_cons_of_pos]
    refine ⟨hreg, ?_, ?_⟩
    · intro hsen
      refine login_of_find_wrong hfind ?_
      unfold verify_password
      refine beq_eq_false_iff_ne.mpr ?_
      intro hcontra
      exact hsen (get_password_hash_inj hcontra)
    · have := login_of_find_ok user.senha nowL em hfind
        (by unfold verify_password; simp)
      simpa using this

/-- Concrete users store holding one registered user named "Ana Silva". -/
def c8Usuario : Usuario := ⟨1, "Ana Silva", get_password_hash "segredo1", "TI", false, true, 5⟩

def c8DB : DB := ⟨[c8Usuario], [], [], [], []⟩

/-- Witness for `auth_register_login_spec`: re-registering "Ana Silva" on
`c8DB` fails with 400; registering "Bruno Costa" on the empty store
succeeds, after which a wrong password is rejected with 401 and the right
one yields the bearer token with subject "7". -/
theorem auth_register_login_spec_witness :
    register c8DB ⟨"Ana Silva", "RH", "outrasenha", false⟩ 2 9
      = (.error (.badRequest "Usuário já existe com este nome"), c8DB) ∧
    (register ⟨[], [], [], [], []⟩ ⟨"Bruno Costa", "TI", "segredo2", false⟩ 7 3
        = (.ok ⟨7, "Bruno Costa", "TI", false, true, 3⟩,
           { (⟨[], [], [], [], []⟩ : DB) with usuarios :=
              [] ++ [⟨7, "Bruno Costa", get_password_hash "segredo2", "TI", false, true, 3⟩] }) ∧
      ("errada99" ≠ "segredo2" →
        login (register ⟨[], [], [], [], []⟩ ⟨"Bruno Costa", "TI", "segredo2", false⟩ 7 3).2
            "Bruno Costa" "errada99" 50 30
          = .error (.unauthorized "Nome de usuário ou senha incorretos")) ∧
      login (register ⟨[], [], [], [], []⟩ ⟨"Bruno Costa", "TI", "segredo2", false⟩ 7 3).2
          "Bruno Costa" "segredo2" 50 30
        = .ok ⟨⟨toString 7, 50 + 30⟩, "bearer", ⟨7, "Bruno Costa", "TI", false, true, 3⟩⟩) :=
  ⟨(auth_register_login_spec c8DB ⟨"Ana Silva", "RH", "outrasenha", false⟩ 2 9 50 30
      "errada99").1 ⟨c8Usuario, by decide, rfl⟩,
   (auth_register_login_spec ⟨[], [], [], [], []⟩ ⟨"Bruno Costa", "TI", "segredo2", false⟩
      7 3 50 30 "errada99").2 (by decide)⟩

/-- C9: the register route takes no caller identity (the handler declares
no authentication dependency), so an anonymous registration request with a
fresh name and `is_admin = true` succeeds, and both the response and the
stored row carry the admin flag set. -/
theorem register_persists_admin_flag (db : DB) (user : UsuarioCreate)
    (newId now : Nat)
    (hfresh : ∀ x ∈ db.usuarios, x.nome_completo ≠ user.nome_completo)
    (hadmin : user.is_admin = true) :
    ∃ resp db2, register db user newId now = (.ok resp, db2) ∧
      resp.is_admin = true ∧
      ∃ x ∈ db2.usuarios, x.nome_completo = user.nome_completo ∧ x.is_admin = true := by
  refine ⟨_, _, register_ok db user newId now hfresh, hadmin, ?_⟩
  exact ⟨⟨newId, user.nome_completo, get_password_hash user.senha,
      user.setor, user.is_admin, true, now⟩,
    List.mem_append_right _ (List.mem_singleton.mpr rfl), rfl, hadmin⟩

/-- Witness for `register_persists_admin_flag`: an anonymous request naming
"Carla Souza" with `is_admin = true` on the empty store creates an admin. -/
theorem register_persists_admin_flag_witness :
    ∃ resp db2,
      register ⟨[], [], [], [], []⟩ ⟨"Carla Souza", "TI", "segredo3", true⟩ 4 6
        = (.ok resp, db2) ∧
      resp.is_admin = true ∧
      ∃ x ∈ db2.usuarios, x.nome_completo = "Carla Souza" ∧ x.is_admin = true :=
  register_persists_admin_flag ⟨[], [], [], [], []⟩ ⟨"Carla Souza", "TI", "segredo3", true⟩
    4 6 (by decide) rfl

/-- Raw line item of a `POST /pedidos/` body, before validation
(`ItemPedidoCreate` in `models.py`): `quantidade` is an arbitrary integer
that the `gt=0, le=8` constraints have not yet filtered. -/
structure ItemPedidoCreateRaw where
  sabor_id : Nat
  quantidade : Int
deriving DecidableEq

/-- Pydantic constraints `gt=0, le=8` on `ItemPedidoCreate.quantidade`. -/
def itemQuantidadeOk (i : ItemPedidoCreateRaw) : Bool :=
  0 < i.quantidade && i.quantidade ≤ 8

/-- Raw `POST /pedidos/` body (`PedidoCreate` in `models.py`): an event id
and a list of line items constrained by `min_items=1`. -/
structure PedidoCreateRaw where
  evento_id : Nat
  itens : List ItemPedidoCreateRaw
deriving DecidableEq

/-- Line item that passed validation: its quantity is a positive count. -/
structure ItemPedidoCreate where
  sabor_id : Nat
  quantidade : Nat
deriving DecidableEq

/-- Validation layer for `POST /pedidos/` bodies: pydantic rejects with 422
any request holding an item whose quantity violates `gt=0, le=8`, or whose
item list violates `min_items=1`, before any handler (hence any storage
access) runs. -/
def parsePedidoCreate (raw : PedidoCreateRaw) :
    Except ApiError (Nat × List ItemPedidoCreate) :=
  if raw.itens.all itemQuantidadeOk then
    if raw.itens.length < 1 then
      .error (.unprocessable "List should have at least 1 item")
    else
      .ok (raw.evento_id, raw.itens.map (fun i => ⟨i.sabor_id, i.quantidade.toNat⟩))
  else
    .error (.unprocessable "Input should be greater than 0 and less than or equal to 8")

/-- Stored line item built from a validated item: the database-assigned id
is `firstItemId` plus the item's position, and the flavor's current
price-per-slice is snapshotted into the row. -/
def mkItemPedido (db : DB) (newPedidoId firstItemId : Nat) :
    Nat × ItemPedidoCreate → ItemPedido
  | (n, i) =>
    ⟨firstItemId + n, newPedidoId, i.sabor_id, i.quantidade,
      ((db.sabores.find? (fun s => s.id == i.sabor_id)).map
        (fun s => s.preco_pedaco)).getD 0⟩

/-- Modelled from the spec: `routes_pedidos.py` (the order-creation route)
is imported by `main.py` but absent from the sources. Per the spec, the
request body is validated first and rejected before touching storage
(§7, §4.4); the event must exist and be open with its deadline in the
future; every referenced flavor must exist and be active; each line item
snapshots the flavor's price-per-slice with subtotal = quantity × price,
the order total is the sum of subtotals, and the shipping value is an
external input (`frete`). On success the order row and its line items are
inserted. -/
def criar_pedido (db : DB) (usuario_id : Nat) (raw : PedidoCreateRaw)
    (newPedidoId firstItemId frete now : Nat) :
    (Except ApiError Pedido) × DB :=
  match parsePedidoCreate raw with
  | .error e => (.error e, db)
  | .ok (eid, itens) =>
    match findEvento db eid with
    | none => (.error (.notFound "Evento não encontrado"), db)
    | some ev =>
      if ev.status == "ABERTO" && now < ev.data_limite then
        if itens.all (fun i =>
            (db.sabores.find? (fun s => s.id == i.sabor_id)).any (fun s => s.ativo)) then
          let novosItens := ((List.range itens.length).zip itens).map
            (mkItemPedido db newPedidoId firstItemId)
          let valor_total := (novosItens.map (fun ip => ip.quantidade * ip.preco_unitario)).sum
          let pedido : Pedido := ⟨newPedidoId, eid, usuario_id, valor_total, frete, "PENDENTE"⟩
          (.ok pedido,
           { db with pedidos := db.pedidos ++ [pedido],
                     itens_pedido := db.itens_pedido ++ novosItens })
        else
          (.error (.badRequest "Sabor não encontrado ou inativo"), db)
      else
        (.error (.badRequest "Evento não está aberto para pedidos"), db)

theorem parsePedidoCreate_ok_inv {raw : PedidoCreateRaw} {eid : Nat}
    {itens : List ItemPedidoCreate}
    (h : parsePedidoCreate raw = .ok (eid, itens)) :
    raw.itens.all itemQuantidadeOk = true ∧ eid = raw.evento_id ∧
    itens = raw.itens.map (fun i => ⟨i.sabor_id, i.quantidade.toNat⟩) := by
  unfold parsePedidoCreate at h
  split at h
  · split at h
    · exact absurd h (by simp)
    · rename_i hall _
      refine ⟨hall, ?_, ?_⟩
      · exact (Prod.mk.injEq .. ▸ (Except.ok.injEq .. ▸ h)).1.symm
      · exact (Prod.mk.injEq .. ▸ (Except.ok.injEq .. ▸ h)).2.symm
  · exact absurd h (by simp)

/-- C7: a creation request holding a line item whose quantity is below 1 or
above 8 is rejected by validation with 422 and the store is untouched; and
the quantity invariant is preserved: when every stored line item has
quantity in 1..8, every stored line item after any `criar_pedido` call
still has quantity in 1..8 (newly inserted items got their quantity from a
validated item). -/
theorem pedido_quantidade_spec (db : DB) (uid : Nat) (raw : PedidoCreateRaw)
    (pid fid frete now : Nat) :
    ((∃ i ∈ raw.itens, i.quantidade < 1 ∨ 8 < i.quantidade) →
      criar_pedido db uid raw pid fid frete now
        = (.error (.unprocessable
            "Input should be greater than 0 and less than or equal to 8"), db)) ∧
    ((∀ ip ∈ db.itens_pedido, 1 ≤ ip.quantidade ∧ ip.quantidade ≤ 8) →
      ∀ ip ∈ (criar_pedido db uid raw pid fid frete now).2.itens_pedido,
        1 ≤ ip.quantidade ∧ ip.quantidade ≤ 8) := by
  constructor
  · rintro ⟨i, hi, hbad⟩
    have hfail : raw.itens.all itemQuantidadeOk = false := by
      rw [List.all_eq_false]
      refine ⟨i, hi, ?_⟩
      unfold itemQuantidadeOk
      rcases hbad with hlt | hgt
      · have : ¬(0 < i.quantidade) := by omega
        simp [this]
      · have : ¬(i.quantidade ≤ 8) := by omega
        simp [this]
    have hparse : parsePedidoCreate raw
        = .error (.unprocessable
            "Input should be greater than 0 and less than or equal to 8") := by
      unfold parsePedidoCreate
      rw [hfail]
      rfl
    unfold criar_pedido
    rw [hparse]
  · intro hinv
    intro ip hip
    unfold criar_pedido at hip
    cases hparse : parsePedidoCreate raw with
    | error e => rw [hparse] at hip; exact hinv ip hip
    | ok pr =>
      obtain ⟨eid, itens⟩ := pr
      rw [hparse] at hip
      simp only [] at hip
      cases hev : findEvento db eid with
      | none => rw [hev] at hip; exact hinv ip hip
      | some ev =>
        rw [hev] at hip
        simp only [] at hip
        by_cases hopen : (ev.status == "ABERTO" && decide (now < ev.data_limite)) = true
        · rw [hopen] at hip
          simp only [if_true] at hip
          by_cases hsab : (itens.all (fun i =>
              (db.sabores.find? (fun s => s.id == i.sabor_id)).any (fun s => s.ativo))) = true
          · rw [hsab] at hip
            simp only [if_true] at hip
            rcases List.mem_append.mp hip with hold | hnew
            · exact hinv ip hold
            · obtain ⟨⟨n, i⟩, hpair, hmk⟩ := List.mem_map.mp hnew
              have hmem : i ∈ itens := (List.of_mem_zip hpair).2
              obtain ⟨hall, _, hitens⟩ := parsePedidoCreate_ok_inv hparse
              rw [hitens] at hmem
              obtain ⟨r, hr, hri⟩ := List.mem_map.mp hmem
              have hq : itemQuantidadeOk r = true := List.all_eq_true.mp hall r hr
              unfold itemQuantidadeOk at hq
              simp only [Bool.and_eq_true, decide_eq_true_eq] at hq
              have hipq : ip.quantidade = r.quantidade.toNat := by
                rw [← hmk, ← hri]
                rfl
              rw [hipq]
              omega
          · rw [Bool.of_not_eq_true hsab] at hip
            simp only [Bool.false_eq_true, if_false] at hip
            exact hinv ip hip
        · rw [Bool.of_not_eq_true hopen] at hip
          simp only [Bool.false_eq_true, if_false] at hip
          exact hinv ip hip

/-- Witness for `pedido_quantidade_spec` on a store with one open event and
one active flavor: a request with a 9-slice item is rejected with 422 and
the store stays empty of line items, which trivially satisfy the bounds. -/
theorem pedido_quantidade_spec_witness :
    (criar_pedido ⟨[], [⟨1, 10, "ABERTO", 100, 0⟩], [], [], [⟨1, "Calabresa", 6, true⟩]⟩
        3 ⟨1, [⟨1, 9⟩]⟩ 1 1 5 50
      = (.error (.unprocessable
          "Input should be greater than 0 and less than or equal to 8"),
         ⟨[], [⟨1, 10, "ABERTO", 100, 0⟩], [], [], [⟨1, "Calabresa", 6, true⟩]⟩)) ∧
    (∀ ip ∈ (criar_pedido ⟨[], [⟨1, 10, "ABERTO", 100, 0⟩], [], [], [⟨1, "Calabresa", 6, true⟩]⟩
        3 ⟨1, [⟨1, 9⟩]⟩ 1 1 5 50).2.itens_pedido,
      1 ≤ ip.quantidade ∧ ip.quantidade ≤ 8) :=
  ⟨(pedido_quantidade_spec
      ⟨[], [⟨1, 10, "ABERTO", 100, 0⟩], [], [], [⟨1, "Calabresa", 6, true⟩]⟩
      3 ⟨1, [⟨1, 9⟩]⟩ 1 1 5 50).1 ⟨⟨1, 9⟩, by decide, by decide⟩,
   (pedido_quantidade_spec
      ⟨[], [⟨1, 10, "ABERTO", 100, 0⟩], [], [], [⟨1, "Calabresa", 6, true⟩]⟩
      3 ⟨1, [⟨1, 9⟩]⟩ 1 1 5 50).2 (by decide)⟩

/-- C10: a creation request whose item list is empty is rejected by the
`min_items=1` validation with 422 — even though the per-item quantity
bounds hold vacuously — and no order is created: the store is returned
unchanged. -/
theorem pedido_min_items_spec (db : DB) (uid eid pid fid frete now : Nat) :
    parsePedidoCreate ⟨eid, []⟩
      = .error (.unprocessable "List should have at least 1 item") ∧
    criar_pedido db uid ⟨eid, []⟩ pid fid frete now
      = (.error (.unprocessable "List should have at least 1 item"), db) := by
  refine ⟨rfl, ?_⟩
  unfold criar_pedido
  rfl

end Pizzada
